import Mathlib

/-!
Verification of the Air Superiority scoring / HUD core (Airsup_v7.ts).

The definitions below are a shallow embedding of the TypeScript source:
teams are identified by the numerals 1 and 2, a zone owner is `some t`
for a team id `t` or `none` for a neutral zone, and match state is passed
explicitly through pure step functions.
-/

namespace Airsup

/-- A zone owner: `some t` when the capture point is owned by team id `t`,
`none` when it is neutral (`GetCurrentOwnerTeam` returned no team). -/
abbrev Owner := Option Nat

/-- `getSecondsPerPoint` from Airsup_v7.ts: score cadence in seconds based
on the number of objectives held. -/
def getSecondsPerPoint (pointsHeld : Nat) : Nat :=
  if pointsHeld = 3 then 1
  else if pointsHeld = 2 then 3
  else if pointsHeld = 1 then 6
  else 0

/-- The per-zone ownership tally of `updateTeamScores`:
`if (Equals(Z, team1)) team1PointsHeld++; else if (Equals(Z, team2)) team2PointsHeld++;`
returned as the pair of contributions to (team1PointsHeld, team2PointsHeld). -/
def tallyZone (owner : Owner) : Nat × Nat :=
  if owner = some 1 then (1, 0)
  else if owner = some 2 then (0, 1)
  else (0, 0)

/-- The mutable scoring state of Airsup_v7.ts: the two module-level score
timers and the authoritative `gameState` team scores. -/
structure ScoreState where
  team1ScoreTimer : Nat
  team2ScoreTimer : Nat
  team1Score : Nat
  team2Score : Nat
deriving Repr, DecidableEq

/-- One team's slice of `updateTeamScores`: the timer increment
(`teamNScoreTimer++`) followed by
`if (teamNRate > 0 && teamNScoreTimer >= teamNRate){ timer = 0; score++; changed }`.
Returns (new timer, new score, changed flag). -/
def applyTeamScore (rate timer score : Nat) : Nat × Nat × Bool :=
  if 0 < rate ∧ rate ≤ timer + 1 then (0, score + 1, true)
  else (timer + 1, score, false)

/-- `updateTeamScores` from Airsup_v7.ts, as a pure function of the three
current zone owners and the scoring state.  Returns the new state and the
`scoreChanged` flag. -/
def updateTeamScores (A B C : Owner) (s : ScoreState) : ScoreState × Bool :=
  let tA := tallyZone A
  let tB := tallyZone B
  let tC := tallyZone C
  let team1PointsHeld := tA.1 + tB.1 + tC.1
  let team2PointsHeld := tA.2 + tB.2 + tC.2
  let team1Rate := getSecondsPerPoint team1PointsHeld
  let team2Rate := getSecondsPerPoint team2PointsHeld
  let r1 := applyTeamScore team1Rate s.team1ScoreTimer s.team1Score
  let r2 := applyTeamScore team2Rate s.team2ScoreTimer s.team2Score
  ({ team1ScoreTimer := r1.1, team2ScoreTimer := r2.1,
     team1Score := r1.2.1, team2Score := r2.2.1 },
   r1.2.2 || r2.2.2)

/-- One 1-second tick of the main mode loop, restricted to its scoring
effect (the state component of `updateTeamScores`). -/
def tick (A B C : Owner) (s : ScoreState) : ScoreState :=
  (updateTeamScores A B C s).1

/-- `n` consecutive ticks with the zone owners held fixed. -/
def ticks (A B C : Owner) : Nat → ScoreState → ScoreState
  | 0, s => s
  | n + 1, s => tick A B C (ticks A B C n s)

/-- Held-count of team `t` (1 or 2; any other id reads team 2's column)
over the three zones. -/
def heldOf (t : Nat) (A B C : Owner) : Nat :=
  if t = 1 then (tallyZone A).1 + (tallyZone B).1 + (tallyZone C).1
  else (tallyZone A).2 + (tallyZone B).2 + (tallyZone C).2

/-- Team `t`'s score timer. -/
def timerOf (t : Nat) (s : ScoreState) : Nat :=
  if t = 1 then s.team1ScoreTimer else s.team2ScoreTimer

/-- Team `t`'s score. -/
def scoreOf (t : Nat) (s : ScoreState) : Nat :=
  if t = 1 then s.team1Score else s.team2Score

lemma tallyZone_fst_le (o : Owner) : (tallyZone o).1 ≤ 1 := by
  unfold tallyZone
  split
  · simp
  · split <;> simp

lemma tallyZone_snd_le (o : Owner) : (tallyZone o).2 ≤ 1 := by
  unfold tallyZone
  split
  · simp
  · split <;> simp

lemma heldOf_le_three (t : Nat) (A B C : Owner) : heldOf t A B C ≤ 3 := by
  have hA1 := tallyZone_fst_le A
  have hB1 := tallyZone_fst_le B
  have hC1 := tallyZone_fst_le C
  have hA2 := tallyZone_snd_le A
  have hB2 := tallyZone_snd_le B
  have hC2 := tallyZone_snd_le C
  unfold heldOf
  split <;> omega

lemma getSecondsPerPoint_pos (h : Nat) (h1 : 0 < h) (h2 : h ≤ 3) :
    0 < getSecondsPerPoint h := by
  interval_cases h <;> simp [getSecondsPerPoint]

lemma applyTeamScore_award (rate timer score : Nat) (h1 : 0 < rate)
    (h2 : rate ≤ timer + 1) :
    applyTeamScore rate timer score = (0, score + 1, true) := by
  unfold applyTeamScore
  rw [if_pos ⟨h1, h2⟩]

lemma applyTeamScore_wait (rate timer score : Nat) (h : timer + 1 < rate) :
    applyTeamScore rate timer score = (timer + 1, score, false) := by
  unfold applyTeamScore
  rw [if_neg (by omega : ¬(0 < rate ∧ rate ≤ timer + 1))]

lemma applyTeamScore_zero (timer score : Nat) :
    applyTeamScore 0 timer score = (timer + 1, score, false) := by
  unfold applyTeamScore
  rw [if_neg (by omega : ¬((0:Nat) < 0 ∧ 0 ≤ timer + 1))]

/-- Projection of one tick onto team `t`'s timer and score: it is exactly
`applyTeamScore` at team `t`'s cadence, independent of the other team. -/
lemma tick_proj (t : Nat) (A B C : Owner) (s : ScoreState) :
    timerOf t (tick A B C s) =
      (applyTeamScore (getSecondsPerPoint (heldOf t A B C))
        (timerOf t s) (scoreOf t s)).1 ∧
    scoreOf t (tick A B C s) =
      (applyTeamScore (getSecondsPerPoint (heldOf t A B C))
        (timerOf t s) (scoreOf t s)).2.1 := by
  by_cases h : t = 1 <;>
    simp [tick, updateTeamScores, timerOf, scoreOf, heldOf, h]

/-- Before the cadence is reached, each tick just advances team `t`'s timer
by one and leaves its score alone. -/
lemma ticks_wait (t : Nat) (A B C : Owner) (s : ScoreState)
    (h0 : timerOf t s = 0) :
    ∀ j, j < getSecondsPerPoint (heldOf t A B C) →
      scoreOf t (ticks A B C j s) = scoreOf t s ∧
      timerOf t (ticks A B C j s) = j := by
  intro j
  induction j with
  | zero => intro _; simp [ticks, h0]
  | succ n ih =>
    intro hlt
    have hn := ih (by omega)
    have hproj := tick_proj t A B C (ticks A B C n s)
    have hstep : ticks A B C (n + 1) s = tick A B C (ticks A B C n s) := rfl
    rw [hstep]
    rw [hproj.1, hproj.2, hn.1, hn.2,
      applyTeamScore_wait _ _ _ (by omega)]
    exact ⟨rfl, rfl⟩

/-- C1: for every team and every held-count h > 0, a team whose timer is 0
gains exactly one point after cadence(h) ticks of continuously holding h
zones, with its timer reset to 0 on the award tick and no score change and
timer equal to the tick index on every earlier tick; and on any tick where
the timer reaches cadence(h), the score is incremented by exactly 1 and the
timer is reset to 0 on that same tick. -/
theorem c1_score_cadence (t h : Nat) (_ht : t = 1 ∨ t = 2) (hh : 0 < h)
    (A B C : Owner) (hheld : heldOf t A B C = h) (s : ScoreState)
    (h0 : timerOf t s = 0) :
    scoreOf t (ticks A B C (getSecondsPerPoint h) s) = scoreOf t s + 1 ∧
    timerOf t (ticks A B C (getSecondsPerPoint h) s) = 0 ∧
    (∀ j, j < getSecondsPerPoint h →
      scoreOf t (ticks A B C j s) = scoreOf t s ∧
      timerOf t (ticks A B C j s) = j) ∧
    (∀ s2 : ScoreState, timerOf t s2 + 1 = getSecondsPerPoint h →
      scoreOf t (tick A B C s2) = scoreOf t s2 + 1 ∧
      timerOf t (tick A B C s2) = 0) := by
  subst hheld
  have hle := heldOf_le_three t A B C
  have hpos := getSecondsPerPoint_pos _ hh hle
  obtain ⟨r, hr⟩ : ∃ r, getSecondsPerPoint (heldOf t A B C) = r + 1 :=
    ⟨getSecondsPerPoint (heldOf t A B C) - 1, by omega⟩
  have hwait := ticks_wait t A B C s h0
  refine ⟨?_, ?_, hwait, ?_⟩
  · have hprev := hwait r (by omega)
    have hproj := tick_proj t A B C (ticks A B C r s)
    have hstep : ticks A B C (r + 1) s = tick A B C (ticks A B C r s) := rfl
    rw [hr, hstep, hproj.2, hprev.1, hprev.2,
      applyTeamScore_award _ _ _ hpos (by omega)]
  · have hprev := hwait r (by omega)
    have hproj := tick_proj t A B C (ticks A B C r s)
    have hstep : ticks A B C (r + 1) s = tick A B C (ticks A B C r s) := rfl
    rw [hr, hstep, hproj.1, hprev.1, hprev.2,
      applyTeamScore_award _ _ _ hpos (by omega)]
  · intro s2 hs2
    have hproj := tick_proj t A B C s2
    constructor
    · rw [hproj.2, applyTeamScore_award _ _ _ hpos (by omega)]
    · rw [hproj.1, applyTeamScore_award _ _ _ hpos (by omega)]

theorem c1_score_cadence_witness :
    scoreOf 1 (ticks (some 1) none none (getSecondsPerPoint 1)
      ⟨0, 0, 0, 0⟩) = 1 ∧
    timerOf 1 (ticks (some 1) none none (getSecondsPerPoint 1)
      ⟨0, 0, 0, 0⟩) = 0 := by
  have h := c1_score_cadence 1 1 (Or.inl rfl) (by decide)
    (some 1) none none (by decide) ⟨0, 0, 0, 0⟩ (by decide)
  exact ⟨by simpa using h.1, h.2.1⟩

/-- C2: the cadence table matches the spec ranges (3 held gives 1 second
per point, 2 held gives a value in 3..5, 1 held a value in 6..10, 0 held
no scoring), and a team whose held-count is 0 on a tick never scores on
that tick. -/
theorem c2_cadence_table :
    getSecondsPerPoint 3 = 1 ∧
    (3 ≤ getSecondsPerPoint 2 ∧ getSecondsPerPoint 2 ≤ 5) ∧
    (6 ≤ getSecondsPerPoint 1 ∧ getSecondsPerPoint 1 ≤ 10) ∧
    getSecondsPerPoint 0 = 0 ∧
    (∀ t (A B C : Owner) (s : ScoreState), (t = 1 ∨ t = 2) →
      heldOf t A B C = 0 → scoreOf t (tick A B C s) = scoreOf t s) := by
  refine ⟨rfl, ⟨by decide, by decide⟩, ⟨by decide, by decide⟩, rfl, ?_⟩
  intro t A B C s _ h0
  have hproj := tick_proj t A B C s
  rw [hproj.2, h0]
  rw [show getSecondsPerPoint 0 = 0 from rfl, applyTeamScore_zero]

theorem c2_cadence_table_witness :
    getSecondsPerPoint 3 = 1 ∧
    scoreOf 1 (tick none none none ⟨0, 0, 5, 7⟩) = 5 := by
  refine ⟨c2_cadence_table.1, ?_⟩
  have h := c2_cadence_table.2.2.2.2 1 none none none ⟨0, 0, 5, 7⟩
    (Or.inl rfl) (by decide)
  simpa using h

/-- C3: the score timer is never reset on a 0-held tick — it increments on
every tick where no point is awarded, it is set back to 0 only together
with a score award, and a team holding 0 zones for j ticks carries its
elapsed count forward (timer grows by exactly j). -/
theorem c3_timer_carry_over :
    (∀ t (A B C : Owner) (s : ScoreState), (t = 1 ∨ t = 2) →
      heldOf t A B C = 0 →
      timerOf t (tick A B C s) = timerOf t s + 1 ∧
      scoreOf t (tick A B C s) = scoreOf t s) ∧
    (∀ t (A B C : Owner) (s : ScoreState), (t = 1 ∨ t = 2) →
      timerOf t (tick A B C s) = 0 →
      scoreOf t (tick A B C s) = scoreOf t s + 1) ∧
    (∀ t (A B C : Owner) (s : ScoreState) (j : Nat), (t = 1 ∨ t = 2) →
      heldOf t A B C = 0 →
      timerOf t (ticks A B C j s) = timerOf t s + j) := by
  have hstep : ∀ t (A B C : Owner) (s : ScoreState),
      heldOf t A B C = 0 →
      timerOf t (tick A B C s) = timerOf t s + 1 ∧
      scoreOf t (tick A B C s) = scoreOf t s := by
    intro t A B C s h0
    have hproj := tick_proj t A B C s
    rw [hproj.1, hproj.2, h0, show getSecondsPerPoint 0 = 0 from rfl,
      applyTeamScore_zero]
    exact ⟨rfl, rfl⟩
  refine ⟨fun t A B C s _ h0 => hstep t A B C s h0, ?_, ?_⟩
  · intro t A B C s _ hz
    have hproj := tick_proj t A B C s
    rw [hproj.2]
    rw [hproj.1] at hz
    revert hz
    unfold applyTeamScore
    split
    · intro _; rfl
    · intro hz; omega
  · intro t A B C s j _ h0
    induction j with
    | zero => simp [ticks]
    | succ n ih =>
      have hstep2 := hstep t A B C (ticks A B C n s) h0
      have heq : ticks A B C (n + 1) s = tick A B C (ticks A B C n s) := rfl
      rw [heq, hstep2.1, ih]
      omega

theorem c3_timer_carry_over_witness :
    timerOf 2 (tick none none none ⟨0, 4, 0, 9⟩) = 5 ∧
    timerOf 2 (ticks none none none 3 ⟨0, 4, 0, 9⟩) = 7 := by
  have h1 := c3_timer_carry_over.1 2 none none none ⟨0, 4, 0, 9⟩
    (Or.inr rfl) (by decide)
  have h2 := c3_timer_carry_over.2.2 2 none none none ⟨0, 4, 0, 9⟩ 3
    (Or.inr rfl) (by decide)
  exact ⟨by simpa using h1.1, by simpa using h2⟩

/-- The perspective mapping of `updateAllHudScores`:
`if (Equals(playerTeam, team1)) (friendly, enemy) = (team1Score, team2Score)
else (team2Score, team1Score)`. -/
def projectScores (playerTeam team1Score team2Score : Nat) : Nat × Nat :=
  if playerTeam = 1 then (team1Score, team2Score)
  else (team2Score, team1Score)

/-- C4: the perspective projection is self-inverse under swapping the
viewer team: a viewer on team 1 sees (s1, s2), a viewer on team 2 sees
(s2, s1), and projecting from the other team's viewpoint swaps the pair
back. -/
theorem c4_perspective_swap (s1 s2 : Nat) :
    projectScores 1 s1 s2 = (s1, s2) ∧
    projectScores 2 s1 s2 = (s2, s1) ∧
    projectScores 2 s1 s2 = Prod.swap (projectScores 1 s1 s2) ∧
    Prod.swap (projectScores 2 s1 s2) = projectScores 1 s1 s2 := by
  simp [projectScores]

/-- `WINDOW_MS` of `InteractMultiClickDetector`. -/
def windowMs : Int := 2000

/-- `REQUIRED_CLICKS` of `InteractMultiClickDetector`. -/
def requiredClicks : Nat := 3

/-- The per-player entry of `InteractMultiClickDetector.STATES`. -/
structure ClickState where
  lastIsInteracting : Bool
  clickCount : Nat
  sequenceStartTime : Int
deriving Repr, DecidableEq

/-- `InteractMultiClickDetector.checkMultiClick` from Airsup_v7.ts, as a
pure step on one player's `ClickState`.  `isInteracting` is the polled raw
sample and `now` is `Date.now()` in milliseconds.  Returns the new state
and the boolean result (true exactly when the gesture completed). -/
def checkMultiClick (isInteracting : Bool) (now : Int) (st : ClickState) :
    ClickState × Bool :=
  if isInteracting = st.lastIsInteracting then (st, false)
  else
    let st1 := { st with lastIsInteracting := isInteracting }
    if isInteracting = false then (st1, false)
    else
      let cc := if 0 < st1.clickCount ∧ windowMs < now - st1.sequenceStartTime
        then 0 else st1.clickCount
      if cc = 0 then
        ({ st1 with sequenceStartTime := now, clickCount := 1 }, false)
      else if cc + 1 ≠ requiredClicks then
        ({ st1 with clickCount := cc + 1 }, false)
      else
        ({ st1 with clickCount := 0 }, true)

/-- C5: the multi-click detector fires exactly on the 3rd rising edge of a
sequence whose presses stay within 2000 ms of the sequence's first press,
resetting the count to 0; the first press of a new sequence (count 0, in
particular right after a completed gesture) records count 1 and never
fires; a rising edge after the window has elapsed since the first press
restarts the count at 1; unchanged samples and falling edges never fire. -/
theorem c5_multiclick_detector :
    (∀ (b : Bool) (now : Int) (st : ClickState), b = st.lastIsInteracting →
      checkMultiClick b now st = (st, false)) ∧
    (∀ (now : Int) (st : ClickState), st.lastIsInteracting = true →
      checkMultiClick false now st =
        ({ st with lastIsInteracting := false }, false)) ∧
    (∀ (now : Int) (st : ClickState), st.lastIsInteracting = false →
      st.clickCount = 0 →
      checkMultiClick true now st =
        ({ st with lastIsInteracting := true, clickCount := 1, sequenceStartTime := now }, false)) ∧
    (∀ (now : Int) (st : ClickState), st.lastIsInteracting = false →
      0 < st.clickCount → windowMs < now - st.sequenceStartTime →
      checkMultiClick true now st =
        ({ st with lastIsInteracting := true, clickCount := 1, sequenceStartTime := now }, false)) ∧
    (∀ (now : Int) (st : ClickState), st.lastIsInteracting = false →
      0 < st.clickCount → now - st.sequenceStartTime ≤ windowMs →
      st.clickCount + 1 ≠ requiredClicks →
      checkMultiClick true now st =
        ({ st with lastIsInteracting := true, clickCount := st.clickCount + 1 }, false)) ∧
    (∀ (now : Int) (st : ClickState), st.lastIsInteracting = false →
      now - st.sequenceStartTime ≤ windowMs →
      st.clickCount + 1 = requiredClicks →
      checkMultiClick true now st =
        ({ st with lastIsInteracting := true, clickCount := 0 }, true)) := by
  refine ⟨?_, ?_, ?_, ?_, ?_, ?_⟩
  · intro b now st hb
    simp [checkMultiClick, hb]
  · intro now st hlast
    simp [checkMultiClick, hlast]
  · intro now st hlast hcc
    simp [checkMultiClick, hlast, hcc]
  · intro now st hlast hcc hwin
    simp [checkMultiClick, hlast, hcc, hwin]
  · intro now st hlast hcc hwin hne
    simp only [checkMultiClick, hlast]
    rw [if_neg (by simp), if_neg (by simp)]
    rw [if_neg (by omega : ¬(0 < st.clickCount ∧
      windowMs < now - st.sequenceStartTime))]
    rw [if_neg (by omega), if_pos hne]
  · intro now st hlast hwin hreq
    have hcc : 0 < st.clickCount := by
      unfold requiredClicks at hreq; omega
    simp only [checkMultiClick, hlast]
    rw [if_neg (by simp), if_neg (by simp)]
    rw [if_neg (by omega : ¬(0 < st.clickCount ∧
      windowMs < now - st.sequenceStartTime))]
    rw [if_neg (by omega), if_neg (not_not_intro hreq)]

theorem c5_multiclick_detector_witness :
    checkMultiClick true 1200 ⟨false, 2, 0⟩ = (⟨true, 0, 0⟩, true) ∧
    checkMultiClick true 500 ⟨false, 1, 0⟩ = (⟨true, 2, 0⟩, false) ∧
    checkMultiClick true 0 ⟨false, 0, 0⟩ = (⟨true, 1, 0⟩, false) ∧
    checkMultiClick true 2500 ⟨false, 2, 0⟩ = (⟨true, 1, 2500⟩, false) ∧
    checkMultiClick false 600 ⟨true, 1, 0⟩ = (⟨false, 1, 0⟩, false) ∧
    checkMultiClick true 700 ⟨true, 1, 0⟩ = (⟨true, 1, 0⟩, false) := by
  refine ⟨?_, ?_, ?_, ?_, ?_, ?_⟩
  · exact c5_multiclick_detector.2.2.2.2.2 1200 ⟨false, 2, 0⟩ rfl
      (by decide) (by decide)
  · exact c5_multiclick_detector.2.2.2.2.1 500 ⟨false, 1, 0⟩ rfl
      (by decide) (by decide) (by decide)
  · exact c5_multiclick_detector.2.2.1 0 ⟨false, 0, 0⟩ rfl rfl
  · exact c5_multiclick_detector.2.2.2.1 2500 ⟨false, 2, 0⟩ rfl
      (by decide) (by decide)
  · exact c5_multiclick_detector.2.1 600 ⟨true, 1, 0⟩ rfl
  · exact c5_multiclick_detector.1 true 700 ⟨true, 1, 0⟩ rfl

/-- The six visibility flags written by `updateSingleObjectiveVisibility`
for one (player, zone) objective stack. -/
structure ObjVis where
  neutral : Bool
  neutralInner : Bool
  friendly : Bool
  friendlyInner : Bool
  enemy : Bool
  enemyInner : Bool
deriving Repr, DecidableEq

/-- `updateSingleObjectiveVisibility` from Airsup_v7.ts on the branch where
all six widget lookups resolve: hard reset of all six flags to invisible,
then single-select of the matching pair.  `ownerTeam` is `none` when the
engine returned no owner; the source's neutral test is
`!ownerTeam || (!Equals(owner, team1) && !Equals(owner, team2))`, then
`Equals(playerTeam, ownerTeam)` selects friendly over enemy. -/
def updateSingleObjectiveVisibility (playerTeam : Nat)
    (ownerTeam : Option Nat) : ObjVis :=
  if ownerTeam = none ∨ (ownerTeam ≠ some 1 ∧ ownerTeam ≠ some 2) then
    { neutral := true, neutralInner := true, friendly := false,
      friendlyInner := false, enemy := false, enemyInner := false }
  else if ownerTeam = some playerTeam then
    { neutral := false, neutralInner := false, friendly := true,
      friendlyInner := true, enemy := false, enemyInner := false }
  else
    { neutral := false, neutralInner := false, friendly := false,
      friendlyInner := false, enemy := true, enemyInner := true }

/-- C6: after a refresh in which all six state widgets resolve, exactly one
outer/inner pair is visible and the other two pairs are invisible; the
visible pair is Neutral exactly when the owner is unset or equal to neither
known team, else Friendly exactly when the owner equals the viewer's team,
and Enemy otherwise. -/
theorem c6_objective_visibility (playerTeam : Nat) (ownerTeam : Option Nat) :
    ((updateSingleObjectiveVisibility playerTeam ownerTeam).neutral =
       (updateSingleObjectiveVisibility playerTeam ownerTeam).neutralInner ∧
     (updateSingleObjectiveVisibility playerTeam ownerTeam).friendly =
       (updateSingleObjectiveVisibility playerTeam ownerTeam).friendlyInner ∧
     (updateSingleObjectiveVisibility playerTeam ownerTeam).enemy =
       (updateSingleObjectiveVisibility playerTeam ownerTeam).enemyInner) ∧
    (((updateSingleObjectiveVisibility playerTeam ownerTeam).neutral = true ∧
      (updateSingleObjectiveVisibility playerTeam ownerTeam).friendly = false ∧
      (updateSingleObjectiveVisibility playerTeam ownerTeam).enemy = false) ∨
     ((updateSingleObjectiveVisibility playerTeam ownerTeam).neutral = false ∧
      (updateSingleObjectiveVisibility playerTeam ownerTeam).friendly = true ∧
      (updateSingleObjectiveVisibility playerTeam ownerTeam).enemy = false) ∨
     ((updateSingleObjectiveVisibility playerTeam ownerTeam).neutral = false ∧
      (updateSingleObjectiveVisibility playerTeam ownerTeam).friendly = false ∧
      (updateSingleObjectiveVisibility playerTeam ownerTeam).enemy = true)) ∧
    ((updateSingleObjectiveVisibility playerTeam ownerTeam).neutral = true ↔
      (ownerTeam = none ∨ (ownerTeam ≠ some 1 ∧ ownerTeam ≠ some 2))) ∧
    (¬(ownerTeam = none ∨ (ownerTeam ≠ some 1 ∧ ownerTeam ≠ some 2)) →
      (((updateSingleObjectiveVisibility playerTeam ownerTeam).friendly = true ↔
         ownerTeam = some playerTeam) ∧
       ((updateSingleObjectiveVisibility playerTeam ownerTeam).enemy = true ↔
         ownerTeam ≠ some playerTeam))) := by
  unfold updateSingleObjectiveVisibility
  by_cases h1 : ownerTeam = none ∨ (ownerTeam ≠ some 1 ∧ ownerTeam ≠ some 2)
  · rw [if_pos h1]
    simp [h1]
  · rw [if_neg h1]
    by_cases h2 : ownerTeam = some playerTeam
    · rw [if_pos h2]
      refine ⟨by simp, by simp, by simp [h1],
        fun hc => ⟨by simp [h2], by simp [h2]⟩⟩
    · rw [if_neg h2]
      refine ⟨by simp, by simp, by simp [h1],
        fun hc => ⟨by simp [h2], by simp [h2]⟩⟩

theorem c6_objective_visibility_witness :
    (updateSingleObjectiveVisibility 1 (some 2)).enemy = true ∧
    (updateSingleObjectiveVisibility 1 (some 1)).friendly = true ∧
    (updateSingleObjectiveVisibility 1 none).neutral = true := by
  refine ⟨?_, ?_, ?_⟩
  · exact ((c6_objective_visibility 1 (some 2)).2.2.2 (by decide)).2.mpr
      (by decide)
  · exact ((c6_objective_visibility 1 (some 1)).2.2.2 (by decide)).1.mpr rfl
  · exact (c6_objective_visibility 1 none).2.2.1.mpr (Or.inl rfl)

/-- The per-player entry of `playerHudMap`: the widget-name handles stored
by `createHUD` for later setter updates. -/
structure PlayerHud where
  blueScoreName : String
  redScoreName : String
  blueBarFillName : String
  redBarFillName : String
  objA_Neutral : String
  objA_NeutralInner : String
  objA_Friendly : String
  objA_FriendlyInner : String
  objA_Enemy : String
  objA_EnemyInner : String
  objB_Neutral : String
  objB_NeutralInner : String
  objB_Friendly : String
  objB_FriendlyInner : String
  objB_Enemy : String
  objB_EnemyInner : String
  objC_Neutral : String
  objC_NeutralInner : String
  objC_Friendly : String
  objC_FriendlyInner : String
  objC_Enemy : String
  objC_EnemyInner : String
deriving Repr, DecidableEq

/-- The handle set `createHUD` stores for player id `id`, with the widget
names built exactly as in the source (`"HUD_BLUE_SCORE_" + id`, ...). -/
def hudFor (id : Nat) : PlayerHud where
  blueScoreName := "HUD_BLUE_SCORE_" ++ toString id
  redScoreName := "HUD_RED_SCORE_" ++ toString id
  blueBarFillName := "HUD_BLUE_BAR_FILL_" ++ toString id
  redBarFillName := "HUD_RED_BAR_FILL_" ++ toString id
  objA_Neutral := "HUD_OBJ_A_NEUTRAL_" ++ toString id
  objA_NeutralInner := "HUD_OBJ_A_NEUTRAL_INNER_" ++ toString id
  objA_Friendly := "HUD_OBJ_A_FRIENDLY_" ++ toString id
  objA_FriendlyInner := "HUD_OBJ_A_FRIENDLY_INNER_" ++ toString id
  objA_Enemy := "HUD_OBJ_A_ENEMY_" ++ toString id
  objA_EnemyInner := "HUD_OBJ_A_ENEMY_INNER_" ++ toString id
  objB_Neutral := "HUD_OBJ_B_NEUTRAL_" ++ toString id
  objB_NeutralInner := "HUD_OBJ_B_NEUTRAL_INNER_" ++ toString id
  objB_Friendly := "HUD_OBJ_B_FRIENDLY_" ++ toString id
  objB_FriendlyInner := "HUD_OBJ_B_FRIENDLY_INNER_" ++ toString id
  objB_Enemy := "HUD_OBJ_B_ENEMY_" ++ toString id
  objB_EnemyInner := "HUD_OBJ_B_ENEMY_INNER_" ++ toString id
  objC_Neutral := "HUD_OBJ_C_NEUTRAL_" ++ toString id
  objC_NeutralInner := "HUD_OBJ_C_NEUTRAL_INNER_" ++ toString id
  objC_Friendly := "HUD_OBJ_C_FRIENDLY_" ++ toString id
  objC_FriendlyInner := "HUD_OBJ_C_FRIENDLY_INNER_" ++ toString id
  objC_Enemy := "HUD_OBJ_C_ENEMY_" ++ toString id
  objC_EnemyInner := "HUD_OBJ_C_ENEMY_INNER_" ++ toString id

/-- `playerHudMap`, as a finite-map abstraction with JS `Map` semantics:
at most one entry per key. -/
abbrev HudMap := Nat → Option PlayerHud

/-- `createHUD` from Airsup_v7.ts.  The guard `if (playerHudMap.has(id))
return;` makes the call a no-op for an already-registered player; the body
then creates the root container (36 widget creations in all when the root
lookup resolves, modelled by `rootResolves`; the source bails out after
the root creation if `FindUIWidgetWithName` fails on it) and finally
stores the handle set.  Returns the new map and the number of widgets
created by the call. -/
def createHUD (id : Nat) (rootResolves : Bool) (m : HudMap) : HudMap × Nat :=
  if (m id).isSome then (m, 0)
  else if rootResolves = false then (m, 1)
  else (fun k => if k = id then some (hudFor id) else m k, 36)

/-- C7: HUD creation is idempotent.  For a fresh player, the first
(successful) call stores the handle set; any subsequent call is a no-op
that creates no widgets and leaves the registry — in particular that
player's stored handle set — identical; and the call touches no other
player's entry, so an entry exists for a player at most once. -/
theorem c7_createHUD_idempotent (id : Nat) (m : HudMap)
    (hfresh : m id = none) :
    (createHUD id true m).1 id = some (hudFor id) ∧
    (∀ b, createHUD id b (createHUD id true m).1 =
      ((createHUD id true m).1, 0)) ∧
    (∀ k, k ≠ id → (createHUD id true m).1 k = m k) := by
  have h1 : createHUD id true m =
      (fun k => if k = id then some (hudFor id) else m k, 36) := by
    unfold createHUD
    rw [if_neg (by simp [hfresh]), if_neg (by simp)]
  refine ⟨?_, ?_, ?_⟩
  · rw [h1]
    simp
  · intro b
    rw [h1]
    unfold createHUD
    rw [if_pos (by simp)]
  · intro k hk
    rw [h1]
    simp [hk]

theorem c7_createHUD_idempotent_witness :
    (createHUD 5 true (fun _ => none)).1 5 = some (hudFor 5) ∧
    createHUD 5 true (createHUD 5 true (fun _ => none)).1 =
      ((createHUD 5 true (fun _ => none)).1, 0) ∧
    (createHUD 5 true (fun _ => none)).1 7 = none := by
  have h := c7_createHUD_idempotent 5 (fun _ => none) rfl
  exact ⟨h.1, h.2.1 true, h.2.2 7 (by decide)⟩

/-- Widget names of the team-switch UI for player id `id`, exactly as
built by `createTeamSwitchUi`. -/
def team1ButtonName (id : Nat) : String := "HUD_TEAM_SWITCH_T1_" ++ toString id

def team2ButtonName (id : Nat) : String := "HUD_TEAM_SWITCH_T2_" ++ toString id

def closeButtonName (id : Nat) : String := "HUD_TEAM_SWITCH_CLOSE_" ++ toString id

def team1TextName (id : Nat) : String := "HUD_TEAM_SWITCH_T1_TEXT_" ++ toString id

def team2TextName (id : Nat) : String := "HUD_TEAM_SWITCH_T2_TEXT_" ++ toString id

def closeTextName (id : Nat) : String := "HUD_TEAM_SWITCH_CLOSE_TEXT_" ++ toString id

/-- The mutable fields of a `PlayerTeamSwitchUi` entry relevant to panel
state (times are match-clock seconds, as returned by
`GetMatchTimeElapsed`). -/
structure TeamSwitchUi where
  panelVisible : Bool
  tapCount : Nat
  lastTapTime : ℚ
  panelOpenedAt : ℚ
deriving Repr, DecidableEq

/-- `setTeamSwitchPanelVisible` from Airsup_v7.ts, restricted to its
effect on the panel state:
`ui.panelVisible = visible; ui.panelOpenedAt = visible ? now : -1000;`. -/
def setTeamSwitchPanelVisible (now : ℚ) (ui : TeamSwitchUi)
    (visible : Bool) : TeamSwitchUi :=
  { ui with panelVisible := visible,
            panelOpenedAt := if visible then now else -1000 }

/-- The per-name test of `widgetOrAncestorMatchesName`:
`name === expected || name === expected + "_BORDER" || name === expected + "_LABEL"`. -/
def nameMatchesExpected (name expected : String) : Bool :=
  name == expected || name == expected ++ "_BORDER" ||
    name == expected ++ "_LABEL"

/-- `widgetOrAncestorMatchesName` from Airsup_v7.ts.  A widget is modelled
by its chain of names, the widget's own name first and then each ancestor
in order; the walk visits at most `maxDepth` widgets. -/
def widgetOrAncestorMatchesName : List String → List String → Nat → Bool
  | _, _, 0 => false
  | [], _, _ => false
  | name :: rest, expectedNames, d + 1 =>
    if expectedNames.any (nameMatchesExpected name) then true
    else widgetOrAncestorMatchesName rest expectedNames d

/-- The `isCloseClick` test of `OnPlayerUIButtonEvent` (the source's
direct widget-identity comparison with the resolved close button is name
equality, which the first disjunct already covers). -/
def matchesClose (id : Nat) (chain : List String) : Bool :=
  (chain.headD "" == closeButtonName id) ||
  (chain.headD "" == closeTextName id) ||
  widgetOrAncestorMatchesName chain [closeButtonName id, closeTextName id] 8

/-- The `isTeam1Click` test of `OnPlayerUIButtonEvent`. -/
def matchesTeam1 (id : Nat) (chain : List String) : Bool :=
  (chain.headD "" == team1ButtonName id) ||
  (chain.headD "" == team1TextName id) ||
  widgetOrAncestorMatchesName chain [team1ButtonName id, team1TextName id] 8

/-- The `isTeam2Click` test of `OnPlayerUIButtonEvent`. -/
def matchesTeam2 (id : Nat) (chain : List String) : Bool :=
  (chain.headD "" == team2ButtonName id) ||
  (chain.headD "" == team2TextName id) ||
  widgetOrAncestorMatchesName chain [team2ButtonName id, team2TextName id] 8

/-- The UI button event kinds the handler distinguishes; `Other` stands
for any event that is neither `ButtonUp` nor `ButtonDown`. -/
inductive UIButtonEvent where
  | ButtonDown
  | ButtonUp
  | Other
deriving Repr, DecidableEq

/-- Externally visible commands issued by `OnPlayerUIButtonEvent`:
the team assignment (`SetTeam`) if any, and the number of
`UndeployPlayer` calls issued. -/
structure ButtonEffects where
  setTeam : Option Nat
  redeployCalls : Nat
deriving Repr, DecidableEq

/-- No command issued. -/
def noEffects : ButtonEffects := { setTeam := none, redeployCalls := 0 }

/-- Number of `UndeployPlayer` calls made by `forceUndeployPlayer`:
one guarded call, a 0.05 s wait, then a second guarded call. -/
def forceUndeployCalls (validBefore validAfterWait : Bool) : Nat :=
  if validBefore = false then 0
  else if validAfterWait = false then 1
  else 2

/-- `OnPlayerUIButtonEvent` from Airsup_v7.ts as a pure function: the
event kind, the clicked widget's name chain, the player's id, team-switch
entry, the match clock, and the player's validity before/after the
redeploy delay, mapped to the updated entry and the issued commands. -/
def onPlayerUIButtonEvent (ev : UIButtonEvent) (chain : List String)
    (id : Nat) (uiOpt : Option TeamSwitchUi) (now : ℚ)
    (validBefore validAfterWait : Bool) :
    Option TeamSwitchUi × ButtonEffects :=
  if ev ≠ UIButtonEvent.ButtonUp ∧ ev ≠ UIButtonEvent.ButtonDown then
    (uiOpt, noEffects)
  else
    match uiOpt with
    | none => (none, noEffects)
    | some ui =>
      if ui.panelVisible = false then (some ui, noEffects)
      else if matchesClose id chain then
        if ev ≠ UIButtonEvent.ButtonUp then (some ui, noEffects)
        else (some (setTeamSwitchPanelVisible now ui false), noEffects)
      else if matchesTeam1 id chain then
        if ev ≠ UIButtonEvent.ButtonUp then (some ui, noEffects)
        else (some (setTeamSwitchPanelVisible now ui false),
          { setTeam := some 1,
            redeployCalls := forceUndeployCalls validBefore validAfterWait })
      else if matchesTeam2 id chain then
        if ev ≠ UIButtonEvent.ButtonUp then (some ui, noEffects)
        else (some (setTeamSwitchPanelVisible now ui false),
          { setTeam := some 2,
            redeployCalls := forceUndeployCalls validBefore validAfterWait })
      else (some ui, noEffects)

/-- C8: with the panel visible and a valid player, a ButtonUp event whose
widget matches the team-2 button (directly or via the ancestor walk, and
matches neither the close nor the team-1 button) assigns the player to
team 2, hides the panel, and issues the forced-redeploy command exactly
twice; a ButtonDown event on the same widget changes nothing and issues
nothing. -/
theorem c8_team2_release (id : Nat) (ui : TeamSwitchUi)
    (chain : List String) (now : ℚ)
    (hvis : ui.panelVisible = true)
    (ht2 : matchesTeam2 id chain = true)
    (hnc : matchesClose id chain = false)
    (hnt1 : matchesTeam1 id chain = false) :
    onPlayerUIButtonEvent UIButtonEvent.ButtonUp chain id (some ui) now
        true true =
      (some (setTeamSwitchPanelVisible now ui false),
       { setTeam := some 2, redeployCalls := 2 }) ∧
    (setTeamSwitchPanelVisible now ui false).panelVisible = false ∧
    onPlayerUIButtonEvent UIButtonEvent.ButtonDown chain id (some ui) now
        true true = (some ui, noEffects) := by
  refine ⟨?_, rfl, ?_⟩
  · simp [onPlayerUIButtonEvent, hvis, hnc, hnt1, ht2, forceUndeployCalls]
  · simp [onPlayerUIButtonEvent, hvis, hnc, hnt1, ht2]

theorem c8_team2_release_witness :
    onPlayerUIButtonEvent UIButtonEvent.ButtonUp ["HUD_TEAM_SWITCH_T2_3"] 3
        (some ⟨true, 0, 0, 0⟩) 5 true true =
      (some (setTeamSwitchPanelVisible 5 ⟨true, 0, 0, 0⟩ false),
       { setTeam := some 2, redeployCalls := 2 }) ∧
    onPlayerUIButtonEvent UIButtonEvent.ButtonDown ["HUD_TEAM_SWITCH_T2_3"] 3
        (some ⟨true, 0, 0, 0⟩) 5 true true =
      (some ⟨true, 0, 0, 0⟩, noEffects) := by
  have h := c8_team2_release 3 ⟨true, 0, 0, 0⟩ ["HUD_TEAM_SWITCH_T2_3"] 5
    rfl (by decide) (by decide) (by decide)
  exact ⟨h.1, h.2.2⟩

/-- The panel-state portion of the `OngoingPlayer` per-player tick from
Airsup_v7.ts: if the multi-click gesture completed, toggle the panel;
then, if the panel is visible and `now - panelOpenedAt > 15`, force-hide
it. -/
def ongoingPlayerPanel (gestureFired : Bool) (now : ℚ)
    (ui : TeamSwitchUi) : TeamSwitchUi :=
  let ui1 := if gestureFired then
    setTeamSwitchPanelVisible now ui (!ui.panelVisible) else ui
  if ui1.panelVisible = true ∧ now - ui1.panelOpenedAt > 15 then
    setTeamSwitchPanelVisible now ui1 false
  else ui1

/-- C9: the team-switch panel never survives a per-player tick on which
the match clock exceeds its `panelOpenedAt` timestamp by more than 15
seconds: whatever the gesture detector did on that tick, the panel is
hidden afterwards. -/
theorem c9_panel_timeout (gestureFired : Bool) (now : ℚ)
    (ui : TeamSwitchUi) (hvis : ui.panelVisible = true)
    (htime : now - ui.panelOpenedAt > 15) :
    (ongoingPlayerPanel gestureFired now ui).panelVisible = false := by
  cases gestureFired <;>
    simp [ongoingPlayerPanel, setTeamSwitchPanelVisible, hvis, htime]

theorem c9_panel_timeout_witness :
    (ongoingPlayerPanel false 20 ⟨true, 0, 0, 0⟩).panelVisible = false ∧
    (ongoingPlayerPanel true 20 ⟨true, 0, 0, 0⟩).panelVisible = false := by
  constructor
  · exact c9_panel_timeout false 20 ⟨true, 0, 0, 0⟩ rfl (by norm_num)
  · exact c9_panel_timeout true 20 ⟨true, 0, 0, 0⟩ rfl (by norm_num)

/-- C10: a UI button event for a player whose panel is not visible, or
who has no team-switch registry entry, leaves all state unchanged and
issues no command — no team reassignment, no redeploy, no visibility
change — for any event kind and any widget. -/
theorem c10_hidden_panel_inert :
    (∀ (ev : UIButtonEvent) (chain : List String) (id : Nat) (now : ℚ)
       (v1 v2 : Bool),
      onPlayerUIButtonEvent ev chain id none now v1 v2 =
        (none, noEffects)) ∧
    (∀ (ev : UIButtonEvent) (chain : List String) (id : Nat)
       (ui : TeamSwitchUi) (now : ℚ) (v1 v2 : Bool),
      ui.panelVisible = false →
      onPlayerUIButtonEvent ev chain id (some ui) now v1 v2 =
        (some ui, noEffects)) := by
  constructor
  · intro ev chain id now v1 v2
    unfold onPlayerUIButtonEvent
    cases ev <;> simp
  · intro ev chain id ui now v1 v2 hvis
    unfold onPlayerUIButtonEvent
    cases ev <;> simp [hvis]

theorem c10_hidden_panel_inert_witness :
    onPlayerUIButtonEvent UIButtonEvent.ButtonUp ["HUD_TEAM_SWITCH_T2_3"] 3
        none 5 true true = (none, noEffects) ∧
    onPlayerUIButtonEvent UIButtonEvent.ButtonUp ["HUD_TEAM_SWITCH_T2_3"] 3
        (some ⟨false, 0, 0, 0⟩) 5 true true =
      (some ⟨false, 0, 0, 0⟩, noEffects) := by
  constructor
  · exact c10_hidden_panel_inert.1 UIButtonEvent.ButtonUp
      ["HUD_TEAM_SWITCH_T2_3"] 3 5 true true
  · exact c10_hidden_panel_inert.2 UIButtonEvent.ButtonUp
      ["HUD_TEAM_SWITCH_T2_3"] 3 ⟨false, 0, 0, 0⟩ 5 true true rfl

end Airsup
